import Mathlib

/-!
Shallow embedding of the meter core of the go-metrics repository
(meter source file and its arbiter), together with theorems settling the
frozen claims about it.

Modelling conventions:
* wall-clock time is a rational number of seconds; every Go operation that
  reads the clock takes the current time as an explicit argument;
* Go float64 rate values are modelled as exact rationals; the source stores
  them as raw uint64 bit patterns and converts with Float64bits and
  Float64frombits, a round trip that is the identity on the stored value,
  so the bit conversion is modelled as the identity; the zero-valued
  uint64 field of a freshly constructed record decodes to 0.0;
* Go int64 arithmetic wraps around; wrap64 reduces an integer into the
  int64 range exactly as two-complement addition does;
* a Go panic is modelled as the error branch of Except;
* rational division by zero yields 0 in Lean where Go float division
  yields an infinity; no theorem below depends on a division whose
  denominator may be zero.
-/

namespace metrics

/-- Reduction of an unbounded integer into the signed 64-bit range,
matching the wraparound of Go int64 addition and subtraction. -/
def wrap64 (x : ℤ) : ℤ :=
  (x + 2 ^ 63) % 2 ^ 64 - 2 ^ 63

/-- Modelled from the spec: the EWMA component is code of this repository
that is not under src (only its interface and constructors are referenced
there).  Per the spec it holds the events accumulated since the last tick,
an initialization flag, the current decayed rate in events per second, and
a decay constant alpha fixed at construction.  The true alpha values are
of the form one minus a real exponential and are irrational, so the
constructor takes alpha as a parameter; no claim below depends on its
value. -/
structure EWMA where
  uncounted : ℤ
  inited : Bool
  rate : ℚ
  alpha : ℚ

/-- Modelled from the spec: the fixed tick cadence of five seconds. -/
def tickIntervalSeconds : ℚ := 5

/-- Modelled from the spec: a fresh EWMA with a window-specific alpha. -/
def NewEWMA (alpha : ℚ) : EWMA :=
  { uncounted := 0, inited := false, rate := 0, alpha := alpha }

/-- Modelled from the spec: update adds the increment to the uncounted
accumulator. -/
def EWMA.Update (e : EWMA) (n : ℤ) : EWMA :=
  { e with uncounted := e.uncounted + n }

/-- Modelled from the spec: tick drains the uncounted accumulator, turns
it into an instantaneous rate over the tick interval, and folds it into
the decayed rate by the EWMA recurrence; the first tick initializes the
rate to the instantaneous rate. -/
def EWMA.Tick (e : EWMA) : EWMA :=
  let instant : ℚ := (e.uncounted : ℚ) / tickIntervalSeconds
  if e.inited then
    { e with uncounted := 0, rate := e.rate + e.alpha * (instant - e.rate) }
  else
    { e with uncounted := 0, inited := true, rate := instant }

/-- Modelled from the spec: the current decayed rate in events per second;
before the first tick it is 0. -/
def EWMA.Rate (e : EWMA) : ℚ :=
  if e.inited then e.rate else 0

/-- The MeterSnapshot record of the source: count and lastCount are int64,
the five rate fields are float64 values stored as bit patterns, and
lastTime is a timestamp.  The source names the second and last fields with
a leading underscore. -/
structure MeterSnapshot where
  count : ℤ
  lastCount : ℤ
  rate1 : ℚ
  rate5 : ℚ
  rate15 : ℚ
  rateMean : ℚ
  rateStep : ℚ
  lastTime : ℚ

/-- Count of a detached snapshot: returns the stored count. -/
def MeterSnapshot.Count (m : MeterSnapshot) : ℤ :=
  m.count

/-- Mark on a detached snapshot: the source body is a single panic call
with the message below. -/
def MeterSnapshot.Mark (_ : MeterSnapshot) (_ : ℤ) : Except String Unit :=
  Except.error ("Mark called on a MeterSnapshot")

/-- Rate1 of a detached snapshot. -/
def MeterSnapshot.Rate1 (m : MeterSnapshot) : ℚ :=
  m.rate1

/-- Rate5 of a detached snapshot. -/
def MeterSnapshot.Rate5 (m : MeterSnapshot) : ℚ :=
  m.rate5

/-- Rate15 of a detached snapshot. -/
def MeterSnapshot.Rate15 (m : MeterSnapshot) : ℚ :=
  m.rate15

/-- RateMean of a detached snapshot. -/
def MeterSnapshot.RateMean (m : MeterSnapshot) : ℚ :=
  m.rateMean

/-- RateStep of a detached snapshot. -/
def MeterSnapshot.RateStep (m : MeterSnapshot) : ℚ :=
  m.rateStep

/-- Stop on a detached snapshot is a no-op. -/
def MeterSnapshot.Stop (m : MeterSnapshot) : MeterSnapshot :=
  m

/-- The StandardMeter struct of the source: the embedded mutable snapshot
record, three EWMAs, the creation timestamp and the stopped flag (a uint32
used as a boolean).  The mutex only orders concurrent calls and has no
sequential content. -/
structure StandardMeter where
  snap : MeterSnapshot
  a1 : EWMA
  a5 : EWMA
  a15 : EWMA
  startTime : ℚ
  stopped : Bool

/-- The newStandardMeter constructor: a fresh snapshot record whose only
set field is lastTime (all other fields are Go zero values), fresh EWMAs,
startTime set to the current time, not stopped.  The clock reading and the
three window alphas are ambient in Go and are parameters here. -/
def newStandardMeter (alpha1 alpha5 alpha15 : ℚ) (nw : ℚ) : StandardMeter :=
  { snap := { count := 0, lastCount := 0, rate1 := 0, rate5 := 0
              rate15 := 0, rateMean := 0, rateStep := 0, lastTime := nw }
    a1 := NewEWMA alpha1, a5 := NewEWMA alpha5, a15 := NewEWMA alpha15
    startTime := nw, stopped := false }

/-- Count: atomic load of the embedded snapshot count. -/
def StandardMeter.Count (m : StandardMeter) : ℤ :=
  m.snap.count

/-- Rate1: atomic load of the published one-minute rate. -/
def StandardMeter.Rate1 (m : StandardMeter) : ℚ :=
  m.snap.rate1

/-- Rate5: atomic load of the published five-minute rate. -/
def StandardMeter.Rate5 (m : StandardMeter) : ℚ :=
  m.snap.rate5

/-- Rate15: atomic load of the published fifteen-minute rate. -/
def StandardMeter.Rate15 (m : StandardMeter) : ℚ :=
  m.snap.rate15

/-- RateMean: atomic load of the published mean rate. -/
def StandardMeter.RateMean (m : StandardMeter) : ℚ :=
  m.snap.rateMean

/-- The updateSnapshot helper of the source: republishes the three EWMA
rates and the mean rate computed as count over seconds since start. -/
def StandardMeter.updateSnapshot (m : StandardMeter) (now : ℚ) : StandardMeter :=
  { m with snap := { m.snap with
      rate1 := m.a1.Rate, rate5 := m.a5.Rate, rate15 := m.a15.Rate
      rateMean := (m.snap.count : ℚ) / (now - m.startTime) } }

/-- Mark: a no-op when stopped; otherwise adds n to the count with int64
wraparound, updates the three EWMAs, and republishes the rates. -/
def StandardMeter.Mark (m : StandardMeter) (n : ℤ) (now : ℚ) : StandardMeter :=
  if m.stopped then m
  else
    let m1 : StandardMeter :=
      { m with
        snap := { m.snap with count := wrap64 (m.snap.count + n) }
        a1 := m.a1.Update n, a5 := m.a5.Update n, a15 := m.a15.Update n }
    m1.updateSnapshot now

/-- The updateSnapshotOnStep helper of the source: recomputes the three
EWMA rates unconditionally, the mean rate when time has passed since
start, and the step rate (count delta over seconds since the previous
step refresh, an int64 subtraction) when time has passed since the
previous refresh; it then records the current count and time as the new
baseline. -/
def StandardMeter.updateSnapshotOnStep (m : StandardMeter) (now : ℚ) : StandardMeter :=
  let sub : ℚ := now - m.startTime
  let step : ℚ := now - m.snap.lastTime
  { m with
    snap := {
      count := m.snap.count
      lastCount := m.snap.count
      rate1 := m.a1.Rate, rate5 := m.a5.Rate, rate15 := m.a15.Rate
      rateMean := if 0 < sub then (m.snap.count : ℚ) / sub else m.snap.rateMean
      rateStep := if 0 < step
        then ((wrap64 (m.snap.count - m.snap.lastCount)) : ℚ) / step
        else m.snap.rateStep
      lastTime := now } }

/-- RateStep: refreshes the snapshot on step under the mutex, then returns
the published step rate; the resulting meter state is returned alongside. -/
def StandardMeter.RateStep (m : StandardMeter) (now : ℚ) : ℚ × StandardMeter :=
  let m1 := m.updateSnapshotOnStep now
  (m1.snap.rateStep, m1)

/-- Snapshot: refreshes the snapshot on step under the mutex, then builds
a brand new MeterSnapshot record holding only the count and the four
published rates; lastCount, rateStep and lastTime are left at their Go
zero values.  The new record and the updated meter are returned. -/
def StandardMeter.Snapshot (m : StandardMeter) (now : ℚ) : MeterSnapshot × StandardMeter :=
  let m1 := m.updateSnapshotOnStep now
  ({ count := m1.snap.count, lastCount := 0
     rate1 := m1.snap.rate1, rate5 := m1.snap.rate5, rate15 := m1.snap.rate15
     rateMean := m1.snap.rateMean, rateStep := 0, lastTime := 0 }, m1)

/-- The internal tick of a meter: advances the three EWMAs and republishes
the rates. -/
def StandardMeter.tick (m : StandardMeter) (now : ℚ) : StandardMeter :=
  ({ m with a1 := m.a1.Tick, a5 := m.a5.Tick, a15 := m.a15.Tick }).updateSnapshot now

/-- Stop: records the previous stopped flag, sets the flag, and when the
meter was not already stopped removes it from the arbiter meter set.  The
set of registered meters is modelled as a list of meter identifiers and
the meter carries its identifier as a parameter. -/
def StandardMeter.Stop (m : StandardMeter) (mid : ℕ) (arbiterMeters : List ℕ) :
    StandardMeter × List ℕ :=
  let stoppedBefore := m.stopped
  let m1 : StandardMeter := { m with stopped := true }
  (m1, if stoppedBefore then arbiterMeters else arbiterMeters.erase mid)

/-- One operation on a meter, with the clock reading it makes. -/
inductive MeterOp where
  | mark (n : ℤ) (now : ℚ)
  | tick (now : ℚ)
  | rateStep (now : ℚ)
  | snapshot (now : ℚ)
  | stop

/-- Effect of one operation on the meter state alone (Stop also touches
the arbiter set, which is irrelevant to the meter state itself). -/
def applyMeterOp (op : MeterOp) (m : StandardMeter) : StandardMeter :=
  match op with
  | MeterOp.mark n now => m.Mark n now
  | MeterOp.tick now => m.tick now
  | MeterOp.rateStep now => (m.RateStep now).2
  | MeterOp.snapshot now => (m.Snapshot now).2
  | MeterOp.stop => { m with stopped := true }

/-- A meter together with the detached snapshots handed out so far; the
issued list models the copies still held by readers. -/
structure MeterWorld where
  meter : StandardMeter
  issued : List MeterSnapshot

/-- Effect of one operation on the world: a snapshot call appends the
detached copy to the issued list; no operation touches copies already
issued. -/
def MeterWorld.applyOp (w : MeterWorld) (op : MeterOp) : MeterWorld :=
  match op with
  | MeterOp.snapshot now =>
    { meter := (w.meter.Snapshot now).2
      issued := w.issued ++ [(w.meter.Snapshot now).1] }
  | op => { w with meter := applyMeterOp op w.meter }

/-- Runs a sequence of operations on a world. -/
def MeterWorld.run (w : MeterWorld) (ops : List MeterOp) : MeterWorld :=
  ops.foldl MeterWorld.applyOp w

/-- Runs a sequence of Mark calls, each with its increment and its clock
reading. -/
def markList (m : StandardMeter) (ns : List (ℤ × ℚ)) : StandardMeter :=
  ns.foldl (fun acc p => acc.Mark p.1 p.2) m

/-- The tickMeters pass of the arbiter: iterates over the registered
meters in order and ticks each one.  A tick may raise a panic (the EWMA
interface dispatches to external code); the source installs no recover, so
per Go semantics a panic aborts the rest of the pass.  The function is
generic in the meter representation and in the tick action. -/
def tickMeters {μ : Type} (tickOf : μ → Except String μ) :
    List μ → Except String (List μ)
  | [] => Except.ok []
  | m :: rest =>
    match tickOf m with
    | Except.error e => Except.error e
    | Except.ok m1 =>
      match tickMeters tickOf rest with
      | Except.error e => Except.error e
      | Except.ok rest1 => Except.ok (m1 :: rest1)

/-- The background ticking loop of the arbiter, run over a finite schedule
of passes, each pass given by the list of meters registered when the
ticker fires.  The loop body has no recover, so a panic escaping a pass
terminates the loop. -/
def arbiterLoop {μ : Type} (tickOf : μ → Except String μ) :
    List (List μ) → Except String Unit
  | [] => Except.ok ()
  | pass :: rest =>
    match tickMeters tickOf pass with
    | Except.error e => Except.error e
    | Except.ok _ => arbiterLoop tickOf rest

/-- A concrete tick action on boolean meters: the true meter misbehaves
and panics, the false meter ticks normally. -/
def demoTick (b : Bool) : Except String Bool :=
  if b then Except.error ("meter tick abort") else Except.ok b

/-- The side condition under which the amended monotonicity claim for the
count holds: an operation other than Mark needs nothing; a Mark needs a
non-negative increment, a count at or above the int64 minimum, and a sum
that stays below the int64 maximum so that no wraparound occurs. -/
def countGuard (m : StandardMeter) (op : MeterOp) : Prop :=
  match op with
  | MeterOp.mark n _ => 0 ≤ n ∧ -(2 ^ 63) ≤ m.snap.count ∧ m.snap.count + n < 2 ^ 63
  | _ => True

/-- A concrete meter state used to instantiate theorems with hypotheses:
count 10, step baseline count 4 taken at time 2, created at time 0. -/
def demoMeter : StandardMeter :=
  { snap := { count := 10, lastCount := 4, rate1 := 0, rate5 := 0
              rate15 := 0, rateMean := 0, rateStep := 0, lastTime := 2 }
    a1 := NewEWMA 0, a5 := NewEWMA 0, a15 := NewEWMA 0
    startTime := 0, stopped := false }

/-! Helper lemmas about int64 wraparound. -/

theorem wrap64_eq_of_range {x : ℤ} (hlo : -(2 ^ 63) ≤ x) (hhi : x < 2 ^ 63) :
    wrap64 x = x := by
  have e1 : ((2 : ℤ) ^ 63) = 9223372036854775808 := by norm_num
  have e2 : ((2 : ℤ) ^ 64) = 18446744073709551616 := by norm_num
  unfold wrap64
  rw [e1] at hlo hhi
  rw [e1, e2]
  omega

theorem wrap64_lb (x : ℤ) : -(2 ^ 63) ≤ wrap64 x := by
  have e1 : ((2 : ℤ) ^ 63) = 9223372036854775808 := by norm_num
  have e2 : ((2 : ℤ) ^ 64) = 18446744073709551616 := by norm_num
  unfold wrap64
  rw [e1, e2]
  omega

theorem wrap64_ub (x : ℤ) : wrap64 x < 2 ^ 63 := by
  have e1 : ((2 : ℤ) ^ 63) = 9223372036854775808 := by norm_num
  have e2 : ((2 : ℤ) ^ 64) = 18446744073709551616 := by norm_num
  unfold wrap64
  rw [e1, e2]
  omega

theorem wrap64_add_left (a b : ℤ) : wrap64 (wrap64 a + b) = wrap64 (a + b) := by
  have e1 : ((2 : ℤ) ^ 63) = 9223372036854775808 := by norm_num
  have e2 : ((2 : ℤ) ^ 64) = 18446744073709551616 := by norm_num
  unfold wrap64
  rw [e1, e2]
  omega

/-! Helper lemmas about single operations on a meter. -/

theorem Mark_count (m : StandardMeter) (n : ℤ) (now : ℚ) :
    (StandardMeter.Mark m n now).snap.count =
      if m.stopped then m.snap.count else wrap64 (m.snap.count + n) := by
  by_cases h : m.stopped <;>
    simp [StandardMeter.Mark, StandardMeter.updateSnapshot, h]

theorem Mark_stopped_eq (m : StandardMeter) (n : ℤ) (now : ℚ) :
    (StandardMeter.Mark m n now).stopped = m.stopped := by
  by_cases h : m.stopped <;>
    simp [StandardMeter.Mark, StandardMeter.updateSnapshot, h]

theorem Mark_of_stopped (m : StandardMeter) (n : ℤ) (now : ℚ)
    (h : m.stopped = true) : StandardMeter.Mark m n now = m := by
  simp [StandardMeter.Mark, h]

theorem markList_of_stopped (ns : List (ℤ × ℚ)) :
    ∀ m : StandardMeter, m.stopped = true → markList m ns = m := by
  induction ns with
  | nil => intro m _; rfl
  | cons p rest ih =>
    intro m h
    have hstep : markList m (p :: rest) = markList (m.Mark p.1 p.2) rest := rfl
    rw [hstep, Mark_of_stopped m p.1 p.2 h]
    exact ih m h

theorem markList_count (ns : List (ℤ × ℚ)) :
    ∀ m : StandardMeter, m.stopped = false →
      -(2 ^ 63) ≤ m.snap.count → m.snap.count < 2 ^ 63 →
      (markList m ns).snap.count = wrap64 (m.snap.count + (ns.map Prod.fst).sum) := by
  induction ns with
  | nil =>
    intro m _ hlo hhi
    simp [markList, wrap64_eq_of_range hlo hhi]
  | cons p rest ih =>
    intro m h hlo hhi
    have hstep : markList m (p :: rest) = markList (m.Mark p.1 p.2) rest := rfl
    have hc : (m.Mark p.1 p.2).snap.count = wrap64 (m.snap.count + p.1) := by
      rw [Mark_count]
      simp [h]
    have hs : (m.Mark p.1 p.2).stopped = false := by
      rw [Mark_stopped_eq]
      exact h
    have hbl : -(2 ^ 63) ≤ (m.Mark p.1 p.2).snap.count := by
      rw [hc]
      exact wrap64_lb _
    have hbu : (m.Mark p.1 p.2).snap.count < 2 ^ 63 := by
      rw [hc]
      exact wrap64_ub _
    rw [hstep, ih _ hs hbl hbu, hc, wrap64_add_left]
    simp [add_assoc]

/-! Helper lemmas about the arbiter tick pass and the world of issued
snapshots. -/

theorem tickMeters_append_error {μ : Type} (tickOf : μ → Except String μ)
    (m : μ) (e : String) (hm : tickOf m = Except.error e) :
    ∀ pre : List μ, (∀ x ∈ pre, ∃ y, tickOf x = Except.ok y) →
      ∀ post : List μ, tickMeters tickOf (pre ++ m :: post) = Except.error e := by
  intro pre
  induction pre with
  | nil =>
    intro _ post
    simp [tickMeters, hm]
  | cons a rest ih =>
    intro hpre post
    obtain ⟨y, hy⟩ := hpre a (List.mem_cons_self a rest)
    have htail := ih (fun x hx => hpre x (List.mem_cons_of_mem a hx)) post
    simp [tickMeters, hy, htail]

theorem tickMeters_ok_of_all_ok {μ : Type} (tickOf : μ → Except String μ) :
    ∀ l : List μ, (∀ x ∈ l, ∃ y, tickOf x = Except.ok y) →
      ∃ l1, tickMeters tickOf l = Except.ok l1 ∧ l1.length = l.length := by
  intro l
  induction l with
  | nil => exact fun _ => ⟨[], rfl, rfl⟩
  | cons a rest ih =>
    intro h
    obtain ⟨y, hy⟩ := h a (List.mem_cons_self a rest)
    obtain ⟨l1, hl1, hlen⟩ := ih (fun x hx => h x (List.mem_cons_of_mem a hx))
    exact ⟨y :: l1, by simp [tickMeters, hy, hl1], by simp [hlen]⟩

theorem applyOp_issued_extend (w : MeterWorld) (op : MeterOp) :
    ∃ t, (w.applyOp op).issued = w.issued ++ t := by
  cases op with
  | snapshot now => exact ⟨[(w.meter.Snapshot now).1], rfl⟩
  | mark n now => exact ⟨[], by simp [MeterWorld.applyOp]⟩
  | tick now => exact ⟨[], by simp [MeterWorld.applyOp]⟩
  | rateStep now => exact ⟨[], by simp [MeterWorld.applyOp]⟩
  | stop => exact ⟨[], by simp [MeterWorld.applyOp]⟩

theorem run_issued_extend (ops : List MeterOp) :
    ∀ w : MeterWorld, ∃ t, (w.run ops).issued = w.issued ++ t := by
  induction ops with
  | nil => exact fun w => ⟨[], by simp [MeterWorld.run]⟩
  | cons op rest ih =>
    intro w
    obtain ⟨t1, h1⟩ := applyOp_issued_extend w op
    obtain ⟨t2, h2⟩ := ih (w.applyOp op)
    refine ⟨t1 ++ t2, ?_⟩
    have hstep : MeterWorld.run w (op :: rest) = MeterWorld.run (w.applyOp op) rest := rfl
    rw [hstep, h2, h1, List.append_assoc]

/-! Theorems settling the claims. -/

/-- Claim C1: for every detached snapshot obtained from Snapshot and every
increment, calling Mark on the snapshot fails loudly with a panic rather
than returning normally or silently doing nothing, deterministically on
every call. -/
theorem claim_mark_on_snapshot_panics (s : MeterSnapshot) (n : ℤ) :
    MeterSnapshot.Mark s n = Except.error ("Mark called on a MeterSnapshot") ∧
    ∀ u : Unit, MeterSnapshot.Mark s n ≠ Except.ok u := by
  refine ⟨rfl, ?_⟩
  intro u h
  simp [MeterSnapshot.Mark] at h

/-- Claim C2 counterexample: a pass over the registered meters in which the
first meter panics while ticking aborts with that panic, even though the
second meter on its own ticks fine, and the panic also terminates the
ticking loop so that a later pass never runs.  The claim that one meter's
panic does not prevent the remaining meters from being ticked is therefore
false of the code, which installs no recover. -/
theorem claim_tick_isolation_cex :
    tickMeters demoTick [true, false] = Except.error ("meter tick abort") ∧
    tickMeters demoTick [false] = Except.ok [false] ∧
    arbiterLoop demoTick [[true, false], [false]] =
      Except.error ("meter tick abort") :=
  ⟨rfl, rfl, rfl⟩

/-- Claim C2 amended: in one pass of the arbiter over the registered
meters, a panic raised while ticking one meter propagates (there is no
recover): the meters after it in the pass are not reached and the ticking
loop terminates with that panic; only when every tick returns normally is
every registered meter of the pass ticked. -/
theorem claim_tick_panic_aborts_pass {μ : Type} (tickOf : μ → Except String μ)
    (pre post : List μ) (m : μ) (e : String)
    (hpre : ∀ x ∈ pre, ∃ y, tickOf x = Except.ok y)
    (hm : tickOf m = Except.error e) :
    tickMeters tickOf (pre ++ m :: post) = Except.error e ∧
    (∀ passes : List (List μ),
      arbiterLoop tickOf ((pre ++ m :: post) :: passes) = Except.error e) ∧
    (∀ l : List μ, (∀ x ∈ l, ∃ y, tickOf x = Except.ok y) →
      ∃ l1, tickMeters tickOf l = Except.ok l1 ∧ l1.length = l.length) := by
  have habort := tickMeters_append_error tickOf m e hm pre hpre post
  refine ⟨habort, ?_, tickMeters_ok_of_all_ok tickOf⟩
  intro passes
  simp [arbiterLoop, habort]

/-- Witness for the amended claim C2 at a concrete pass. -/
theorem claim_tick_panic_aborts_pass_witness :
    tickMeters demoTick ([] ++ true :: [false]) =
      Except.error ("meter tick abort") :=
  (claim_tick_panic_aborts_pass demoTick [] [false] true ("meter tick abort")
    (fun x hx => absurd hx (List.not_mem_nil x)) rfl).1

/-- Claim C3 counterexample: Mark accepts a negative increment and applies
it, so the count of a fresh meter strictly decreases on Mark of minus one;
the claim that the count never decreases after any operation is false of
the code. -/
theorem claim_count_monotone_cex :
    StandardMeter.Count (applyMeterOp (MeterOp.mark (-1) 1) (newStandardMeter 0 0 0 0)) <
      StandardMeter.Count (newStandardMeter 0 0 0 0) := by
  have h : StandardMeter.Count (applyMeterOp (MeterOp.mark (-1) 1) (newStandardMeter 0 0 0 0)) =
      wrap64 ((newStandardMeter 0 0 0 0).snap.count + (-1)) := by
    have := Mark_count (newStandardMeter 0 0 0 0) (-1) 1
    simpa [applyMeterOp, StandardMeter.Count, newStandardMeter] using this
  rw [h]
  norm_num [newStandardMeter, StandardMeter.Count, wrap64]

/-- Claim C3 amended: the count never decreases under tick, rate reads,
Snapshot or Stop, and never decreases under Mark provided the increment is
non-negative and the int64 sum does not overflow (the count sits in int64,
so a negative increment or a wraparound can lower it). -/
theorem claim_count_monotone_guarded (m : StandardMeter) (op : MeterOp)
    (h : countGuard m op) :
    StandardMeter.Count m ≤ StandardMeter.Count (applyMeterOp op m) := by
  cases op with
  | mark n now =>
    obtain ⟨hn, hlo, hhi⟩ := h
    by_cases hs : m.stopped
    · simp [applyMeterOp, StandardMeter.Count, Mark_count, hs]
    · have hc : StandardMeter.Count (applyMeterOp (MeterOp.mark n now) m) =
          wrap64 (m.snap.count + n) := by
        simp [applyMeterOp, StandardMeter.Count, Mark_count, hs]
      rw [hc, wrap64_eq_of_range (by linarith) hhi]
      simp [StandardMeter.Count]
      linarith
  | tick now =>
    simp [applyMeterOp, StandardMeter.tick, StandardMeter.updateSnapshot,
      StandardMeter.Count]
  | rateStep now =>
    simp [applyMeterOp, StandardMeter.RateStep, StandardMeter.updateSnapshotOnStep,
      StandardMeter.Count]
  | snapshot now =>
    simp [applyMeterOp, StandardMeter.Snapshot, StandardMeter.updateSnapshotOnStep,
      StandardMeter.Count]
  | stop =>
    simp [applyMeterOp, StandardMeter.Count]

/-- Witness for the amended claim C3 at a concrete meter and operation. -/
theorem claim_count_monotone_guarded_witness :
    StandardMeter.Count (newStandardMeter 0 0 0 0) ≤
      StandardMeter.Count (applyMeterOp (MeterOp.mark 5 1) (newStandardMeter 0 0 0 0)) :=
  claim_count_monotone_guarded (newStandardMeter 0 0 0 0) (MeterOp.mark 5 1)
    (by refine ⟨by norm_num, ?_, ?_⟩ <;> norm_num [newStandardMeter])

/-- Claim C4 counterexample: the count is an int64 and Mark adds with
wraparound, so after marking the int64 maximum and then one more the count
is the int64 minimum, not the exact sum two to the sixty-third; the claim
that the count equals the exact sum of all increments is false of the
code for sums leaving the int64 range. -/
theorem claim_count_exact_sum_cex :
    StandardMeter.Count (markList (newStandardMeter 0 0 0 0)
        [((2 : ℤ) ^ 63 - 1, (1 : ℚ)), ((1 : ℤ), (2 : ℚ))]) = -(2 ^ 63) ∧
    (([((2 : ℤ) ^ 63 - 1, (1 : ℚ)), ((1 : ℤ), (2 : ℚ))].map Prod.fst).sum = 2 ^ 63) ∧
    StandardMeter.Count (markList (newStandardMeter 0 0 0 0)
        [((2 : ℤ) ^ 63 - 1, (1 : ℚ)), ((1 : ℤ), (2 : ℚ))]) ≠
      (([((2 : ℤ) ^ 63 - 1, (1 : ℚ)), ((1 : ℤ), (2 : ℚ))].map Prod.fst).sum) := by
  have hc : StandardMeter.Count (markList (newStandardMeter 0 0 0 0)
      [((2 : ℤ) ^ 63 - 1, (1 : ℚ)), ((1 : ℤ), (2 : ℚ))]) = -(2 ^ 63) := by
    have h := markList_count [((2 : ℤ) ^ 63 - 1, (1 : ℚ)), ((1 : ℤ), (2 : ℚ))]
      (newStandardMeter 0 0 0 0) rfl (by norm_num [newStandardMeter])
      (by norm_num [newStandardMeter])
    have e1 : ((2 : ℤ) ^ 63) = 9223372036854775808 := by norm_num
    have e2 : ((2 : ℤ) ^ 64) = 18446744073709551616 := by norm_num
    rw [StandardMeter.Count, h]
    simp [newStandardMeter, wrap64, e1, e2]
  refine ⟨hc, by norm_num, ?_⟩
  rw [hc]
  norm_num

/-- Claim C4 amended: for a fresh never-stopped meter and any finite
sequence of Mark calls with increments of either sign, the count equals
the exact sum of the increments reduced into the int64 range by two
complement wraparound; in particular it equals the exact sum whenever that
sum and all its prefixes fit in int64. -/
theorem claim_count_sum_wrapped (alpha1 alpha5 alpha15 t : ℚ) (ns : List (ℤ × ℚ)) :
    StandardMeter.Count (markList (newStandardMeter alpha1 alpha5 alpha15 t) ns) =
      wrap64 ((ns.map Prod.fst).sum) := by
  have h := markList_count ns (newStandardMeter alpha1 alpha5 alpha15 t) rfl
    (by norm_num [newStandardMeter]) (by norm_num [newStandardMeter])
  simpa [StandardMeter.Count, newStandardMeter] using h

/-- Claim C5: after Stop, every subsequent sequence of Mark calls leaves
the meter state (count, published rates, everything) literally unchanged,
and the count stays at its value at the moment of Stop. -/
theorem claim_mark_after_stop_frame (m : StandardMeter) (mid : ℕ) (A : List ℕ)
    (ns : List (ℤ × ℚ)) :
    markList (StandardMeter.Stop m mid A).1 ns = (StandardMeter.Stop m mid A).1 ∧
    StandardMeter.Count (markList (StandardMeter.Stop m mid A).1 ns) =
      StandardMeter.Count m := by
  have hstop : (StandardMeter.Stop m mid A).1.stopped = true := rfl
  have hfix := markList_of_stopped ns (StandardMeter.Stop m mid A).1 hstop
  exact ⟨hfix, by rw [hfix]; rfl⟩

/-- Claim C6: Snapshot returns a detached copy.  The copy appended to the
issued list holds exactly the published count and the four published rates
of the meter at the time of the call (after the forced refresh), and no
subsequent sequence of operations on the originating meter changes any
snapshot issued so far: the issued list is only ever extended on the
right. -/
theorem claim_snapshot_detached (w : MeterWorld) (now : ℚ) (ops : List MeterOp) :
    (w.applyOp (MeterOp.snapshot now)).issued =
      w.issued ++ [(w.meter.Snapshot now).1] ∧
    ((w.applyOp (MeterOp.snapshot now)).run ops).issued.take
        (w.applyOp (MeterOp.snapshot now)).issued.length =
      (w.applyOp (MeterOp.snapshot now)).issued ∧
    MeterSnapshot.Count (w.meter.Snapshot now).1 =
      StandardMeter.Count (w.meter.Snapshot now).2 ∧
    MeterSnapshot.Rate1 (w.meter.Snapshot now).1 =
      StandardMeter.Rate1 (w.meter.Snapshot now).2 ∧
    MeterSnapshot.Rate5 (w.meter.Snapshot now).1 =
      StandardMeter.Rate5 (w.meter.Snapshot now).2 ∧
    MeterSnapshot.Rate15 (w.meter.Snapshot now).1 =
      StandardMeter.Rate15 (w.meter.Snapshot now).2 ∧
    MeterSnapshot.RateMean (w.meter.Snapshot now).1 =
      StandardMeter.RateMean (w.meter.Snapshot now).2 := by
  refine ⟨rfl, ?_, rfl, rfl, rfl, rfl, rfl⟩
  obtain ⟨t, ht⟩ := run_issued_extend ops (w.applyOp (MeterOp.snapshot now))
  rw [ht]
  exact List.take_left _ _

/-- Claim C7: RateStep forces a refresh before returning: the returned
step value is the count delta since the previous step refresh divided by
the seconds elapsed since it, the three EWMA rates and the mean rate are
republished, and the current count and time are recorded as the new
baseline.  The hypotheses ask that time has strictly advanced since the
previous refresh and since construction (else the source skips the guarded
stores) and that the int64 count delta does not wrap. -/
theorem claim_rate_step_refresh (m : StandardMeter) (now : ℚ)
    (h1 : m.snap.lastTime < now) (h2 : m.startTime < now)
    (h3 : -(2 ^ 63) ≤ m.snap.count - m.snap.lastCount)
    (h4 : m.snap.count - m.snap.lastCount < 2 ^ 63) :
    (StandardMeter.RateStep m now).1 =
        ((m.snap.count - m.snap.lastCount : ℤ) : ℚ) / (now - m.snap.lastTime) ∧
    (StandardMeter.RateStep m now).2.snap.rateStep = (StandardMeter.RateStep m now).1 ∧
    (StandardMeter.RateStep m now).2.snap.rate1 = m.a1.Rate ∧
    (StandardMeter.RateStep m now).2.snap.rate5 = m.a5.Rate ∧
    (StandardMeter.RateStep m now).2.snap.rate15 = m.a15.Rate ∧
    (StandardMeter.RateStep m now).2.snap.rateMean =
      (m.snap.count : ℚ) / (now - m.startTime) ∧
    (StandardMeter.RateStep m now).2.snap.lastCount = m.snap.count ∧
    (StandardMeter.RateStep m now).2.snap.lastTime = now := by
  have hstep : (0 : ℚ) < now - m.snap.lastTime := sub_pos.mpr h1
  have hsub : (0 : ℚ) < now - m.startTime := sub_pos.mpr h2
  refine ⟨?_, rfl, rfl, rfl, rfl, ?_, rfl, rfl⟩
  · show (StandardMeter.updateSnapshotOnStep m now).snap.rateStep = _
    simp [StandardMeter.updateSnapshotOnStep, hstep, wrap64_eq_of_range h3 h4]
  · show (StandardMeter.updateSnapshotOnStep m now).snap.rateMean = _
    simp [StandardMeter.updateSnapshotOnStep, hsub]

/-- Witness for claim C7 at a concrete meter: count 10, baseline count 4
taken at time 2, now 5, so the step rate is six thirds, that is 2. -/
theorem claim_rate_step_refresh_witness :
    (StandardMeter.RateStep demoMeter 5).1 = 2 := by
  have h := claim_rate_step_refresh demoMeter 5 (by norm_num [demoMeter])
    (by norm_num [demoMeter]) (by norm_num [demoMeter]) (by norm_num [demoMeter])
  rw [h.1]
  norm_num [demoMeter]

/-- Claim C8: a freshly constructed meter, before any Mark or tick,
publishes zero one-, five- and fifteen-minute rates (the rate fields of
the fresh snapshot record are zero-valued and decode to zero). -/
theorem claim_fresh_rates_zero (alpha1 alpha5 alpha15 t : ℚ) :
    StandardMeter.Rate1 (newStandardMeter alpha1 alpha5 alpha15 t) = 0 ∧
    StandardMeter.Rate5 (newStandardMeter alpha1 alpha5 alpha15 t) = 0 ∧
    StandardMeter.Rate15 (newStandardMeter alpha1 alpha5 alpha15 t) = 0 :=
  ⟨rfl, rfl, rfl⟩

/-- Claim C9: Stop is idempotent: a second Stop leaves both the meter
state and the arbiter set of registered meters exactly as the first Stop
left them, and it is a total operation that cannot fail. -/
theorem claim_stop_idempotent (m : StandardMeter) (mid : ℕ) (A : List ℕ) :
    StandardMeter.Stop (StandardMeter.Stop m mid A).1 mid
        (StandardMeter.Stop m mid A).2 =
      StandardMeter.Stop m mid A :=
  rfl

/-- Claim C10: the detached copy built by Snapshot does not carry the step
rate: the copied record leaves that field at its zero value, so RateStep
on the returned value is always zero whatever the step rate of the
originating meter. -/
theorem claim_snapshot_rate_step_zero (m : StandardMeter) (now : ℚ) :
    MeterSnapshot.RateStep (StandardMeter.Snapshot m now).1 = 0 :=
  rfl

end metrics
